import Mathlib

/-!
Verification of the NagProm Alert Correlation Engine
(`src/analytics/alert_correlation.py`, class `AlertCorrelationEngine`).

The Python source is shallowly embedded below.  Conventions:

* `datetime` values are modeled as rational numbers of seconds, and
  `timedelta` values as rational numbers of seconds; `datetime` ordering and
  subtraction (`total_seconds`) coincide with the rational order/subtraction.
* Python dicts that are keyed by strings and iterated in insertion order are
  modeled as association lists (`List (String × _)`), looked up first-match.
* Python sets of strings whose iteration order is hash-dependent are modeled
  as duplicate-free lists in first-occurrence order; no claim below depends
  on that iteration order.
* `uuid.uuid4()` cluster ids and `datetime.now()` creation stamps are fresh
  values irrelevant to every property proved here; they are omitted from the
  embedded records (where `now` matters, it is passed as an argument).
* Floating point arithmetic is modeled as exact rational arithmetic.  The
  only comparison where the difference could matter is analyzed in a comment
  at `noiseFlaggedKeys`.
* `statistics.stdev` computes a square root, which has no exact rational
  counterpart; functions that consume a standard deviation take it as an
  extra argument, and theorems characterize it by `std ≥ 0 ∧ std² = sample
  variance`, i.e. as the exact square root of the sample variance computed
  by the embedded `sampleVar`.
-/

/-- `AlertSeverity` enum of the source. -/
inductive AlertSeverity where
  | critical
  | warning
  | info
  | unknown
deriving DecidableEq, Repr

/-- `AlertStatus` enum of the source. -/
inductive AlertStatus where
  | firing
  | resolved
  | acknowledged
  | suppressed
deriving DecidableEq, Repr

/-- `CorrelationType` enum of the source. -/
inductive CorrelationType where
  | temporal
  | spatial
  | causal
  | similarity
  | dependency
  | frequency
deriving DecidableEq, Repr

/-- `IncidentSeverity` enum of the source. -/
inductive IncidentSeverity where
  | sev1
  | sev2
  | sev3
  | sev4
deriving DecidableEq, Repr

/-- The `Alert` dataclass.  The `labels` and `annotations` dicts are omitted:
no operation embedded here reads them.  `timestamp`, `resolved_at` and
`acknowledged_at` are rational seconds (see the header comment). -/
structure Alert where
  id : String
  timestamp : ℚ
  service : String
  host : String
  severity : AlertSeverity
  status : AlertStatus
  title : String
  description : String
  fingerprint : String := ""
  resolvedAt : Option ℚ := none
  acknowledgedAt : Option ℚ := none
  acknowledgedBy : Option String := none
  correlationId : Option String := none
deriving DecidableEq, Repr

/-- Result dict of `_assess_cluster_impact` (the severity-breakdown entry is
omitted: nothing embedded here reads it). -/
structure ImpactAssessment where
  affectedServices : ℕ
  affectedHosts : ℕ
  totalAlerts : ℕ
  services : List String
  hosts : List String
deriving DecidableEq, Repr

/-- The `AlertCluster` dataclass.  The generated `id` and `created_at` stamp
are fresh values omitted from the model (see the header comment). -/
structure AlertCluster where
  alerts : List Alert
  correlationType : CorrelationType
  confidenceScore : ℚ
  rootCauseCandidates : List String
  impactAssessment : ImpactAssessment
  resolvedAt : Option ℚ := none
deriving DecidableEq, Repr

/-- First-match lookup in an association list; models `d[k]`/`k in d` for a
string-keyed Python dict. -/
def assocLookup {β : Type} (l : List (String × β)) (k : String) : Option β :=
  match l with
  | [] => none
  | (k', v) :: rest => if k' = k then some v else assocLookup rest k

/-- Duplicate-free sublist in first-occurrence order; models building a
Python set from a list (up to iteration order, see the header comment). -/
def firstOccurrences {α : Type} [DecidableEq α] (l : List α) : List α :=
  l.foldl (fun acc x => if x ∈ acc then acc else acc ++ [x]) []

/-- `_assess_cluster_impact`. -/
def assessClusterImpact (alerts : List Alert) : ImpactAssessment :=
  let services := firstOccurrences (alerts.map (·.service))
  let hosts := firstOccurrences (alerts.map (·.host))
  { affectedServices := services.length
    affectedHosts := hosts.length
    totalAlerts := alerts.length
    services := services
    hosts := hosts }

/-- `min(alerts, key=lambda x: x.timestamp)`: the first alert with minimal
timestamp (Python's `min` keeps the first of equal minima). -/
def earliestAlert : List Alert → Option Alert
  | [] => none
  | a :: rest =>
    match earliestAlert rest with
    | none => some a
    | some b => if b.timestamp < a.timestamp then some b else some a

/-- The strategy-specific part of `_identify_root_causes` (everything before
the `or ["unknown"]` fallback). -/
def rootCauseHeuristics (alerts : List Alert) (ct : CorrelationType)
    (deps : List (String × List String)) : List String :=
  match ct with
  | .dependency =>
    if deps = [] then []
    else (alerts.map (·.service)).filter (fun s => assocLookup deps s = some [])
  | .temporal =>
    match earliestAlert alerts with
    | some a => [a.service ++ ":" ++ a.host]
    | none => []
  | .spatial => ["network", "infrastructure", "hardware"]
  | _ => []

/-- `_identify_root_causes`: heuristics, falling back to `["unknown"]`
(`return root_causes or ["unknown"]`). -/
def identifyRootCauses (alerts : List Alert) (ct : CorrelationType)
    (deps : List (String × List String)) : List String :=
  let rc := rootCauseHeuristics alerts ct deps
  if rc = [] then ["unknown"] else rc

/-- `_create_cluster` (the uuid id, the `created_at` stamp, and the
`correlation_id` write-back onto the member alerts are omitted; no property
proved here reads them). -/
def createCluster (deps : List (String × List String)) (alerts : List Alert)
    (ct : CorrelationType) (confidence : ℚ) : AlertCluster :=
  { alerts := alerts
    correlationType := ct
    confidenceScore := confidence
    rootCauseCandidates := identifyRootCauses alerts ct deps
    impactAssessment := assessClusterImpact alerts }

/-- One step of collapsing digit runs: the model of
`re.sub(r'\d+', 'X', s)`.  The flag records whether the previous character
was a digit (i.e. we are inside a run already replaced by `'X'`). -/
def collapseGo : Bool → List Char → List Char
  | _, [] => []
  | inRun, c :: cs =>
    if c.isDigit then
      if inRun then collapseGo true cs else 'X' :: collapseGo true cs
    else c :: collapseGo false cs

/-- `re.sub(r'\d+', 'X', s)`: every maximal run of digits becomes one `'X'`.
(Python's `\d` also matches non-ASCII decimal digits; `Char.isDigit` is the
ASCII fragment, which covers every string appearing in the claims.) -/
def collapseDigits (l : List Char) : List Char := collapseGo false l

/-- `alert.title.lower()` followed by the digit-run substitution, as in
`_generate_fingerprint` (`str.lower` modeled by `Char.toLower`, its ASCII
fragment; the claims only involve ASCII titles). -/
def normalizeTitle (t : String) : List Char :=
  collapseDigits (t.data.map Char.toLower)

/-- The string `f"{service}:{host}:{normalized_title}"` hashed by
`_generate_fingerprint`.  The md5-digest step is omitted: md5 is a function,
so equal input strings receive equal digests, and every property claimed of
the fingerprint is an equality propagated through the digest. -/
def generateFingerprint (a : Alert) : String :=
  a.service ++ ":" ++ a.host ++ ":" ++ String.mk (normalizeTitle a.title)

/-- `l₁` and `l₂` are equal except on maximal digit runs: both strings are
the same alternation of shared non-digit characters and (possibly different)
nonempty digit runs.  This formalizes "titles that differ only in digits". -/
inductive DigitRunEquiv : List Char → List Char → Prop where
  | nil : DigitRunEquiv [] []
  | cons (c : Char) {l₁ l₂ : List Char} (hc : c.isDigit = false)
      (h : DigitRunEquiv l₁ l₂) : DigitRunEquiv (c :: l₁) (c :: l₂)
  | runs (d₁ d₂ : List Char) {l₁ l₂ : List Char}
      (hne₁ : d₁ ≠ []) (hne₂ : d₂ ≠ [])
      (hd₁ : ∀ c ∈ d₁, c.isDigit = true) (hd₂ : ∀ c ∈ d₂, c.isDigit = true)
      (hb₁ : ∀ c ∈ l₁.head?, c.isDigit = false)
      (hb₂ : ∀ c ∈ l₂.head?, c.isDigit = false)
      (h : DigitRunEquiv l₁ l₂) : DigitRunEquiv (d₁ ++ l₁) (d₂ ++ l₂)

/-- Splits off the leading maximal digit run. -/
def digitRun : List Char → List Char × List Char
  | [] => ([], [])
  | c :: cs =>
    if c.isDigit then
      let p := digitRun cs
      (c :: p.1, p.2)
    else ([], c :: cs)

/-- Consecutive differences `l[i+1] - l[i]`; models the gap computation
`sorted_alerts[i].timestamp - sorted_alerts[i-1].timestamp`. -/
def diffs (l : List ℚ) : List ℚ := List.zipWith (fun a b => a - b) l.tail l

/-- `statistics.mean`. -/
def qmean (l : List ℚ) : ℚ := l.sum / l.length

/-- The sample variance, i.e. the square of `statistics.stdev`
(`statistics.stdev` divides by `n - 1`). -/
def sampleVar (l : List ℚ) : ℚ :=
  (l.map (fun x => (x - qmean l) ^ 2)).sum / ((l.length : ℚ) - 1)

/-- The gap list of `_calculate_temporal_confidence`: consecutive timestamp
differences after sorting by timestamp.  (The code sorts the alerts and then
subtracts adjacent timestamps; sorting the timestamp multiset directly gives
the identical list, since two sorted lists of the same multiset are equal.) -/
def gapsOf (alerts : List Alert) : List ℚ :=
  diffs (List.insertionSort (· ≤ ·) (alerts.map (·.timestamp)))

/-- `_calculate_temporal_confidence`, with the standard deviation of the
gaps supplied as the argument `std` (see the header comment; theorems tie it
to `sampleVar (gapsOf alerts)`).  Mirrors the source: a `< 2`-alert group
scores `0`; otherwise `confidence = max(0.1, 1 - avg_gap/300)`, multiplied
by `max(0.1, 1 - std_gap/avg_gap)` when `std_gap > 0`, and finally
`min(1.0, confidence)` is returned. -/
def calculateTemporalConfidence (alerts : List Alert) (std : ℚ) : ℚ :=
  if alerts.length < 2 then 0
  else
    let gaps := gapsOf alerts
    let avg := qmean gaps
    let confidence : ℚ := max (1/10) (1 - avg / 300)
    let confidence := if 0 < std then confidence * max (1/10) (1 - std / avg)
      else confidence
    min 1 confidence

/-- `_calculate_spatial_confidence`: `0.9 if len(alerts) > 1 else 0.0`. -/
def calculateSpatialConfidence (alerts : List Alert) : ℚ :=
  if 1 < alerts.length then 9/10 else 0

/-- `_calculate_similarity_confidence`: `float(np.mean(similarity_matrix))`,
the mean over all entries of the pairwise similarity matrix (`np.mean` of a
2-D array averages every entry; the `alerts` argument of the source is
unused).  The matrix comes from the pluggable sklearn capability (TF-IDF +
cosine similarity, §9 of the spec) outside this core, so it is taken as an
argument, row by row. -/
def calculateSimilarityConfidence (matrix : List (List ℚ)) : ℚ :=
  qmean matrix.flatten

/-- Modelled from the spec words of claim C3 ("max(0.1, 1 − avg_gap/300),
multiplied by the penalty 1 − stdev_gap/avg_gap when the gaps vary, with the
final result floored at 0.1 and capped at 1.0"), for comparison with
`calculateTemporalConfidence`. -/
def temporalConfidenceClaimed (alerts : List Alert) (std : ℚ) : ℚ :=
  if alerts.length < 2 then 0
  else
    let avg := qmean (gapsOf alerts)
    min 1 (max (1/10)
      ((max (1/10) (1 - avg / 300)) * (if 0 < std then 1 - std / avg else 1)))

/-- The amended formula for claim C3: each factor is floored at `0.1`
individually, and the final product is capped at `1.0` but not floored. -/
def temporalConfidenceFormula (alerts : List Alert) (std : ℚ) : ℚ :=
  if alerts.length < 2 then 0
  else
    let avg := qmean (gapsOf alerts)
    min 1 ((max (1/10) (1 - avg / 300)) *
      (if 0 < std then max (1/10) (1 - std / avg) else 1))

/-- A raised Python exception.  `typeError` stands for
`TypeError: unhashable type: 'Alert'`. -/
inductive PyError where
  | typeError
deriving DecidableEq, Repr

/-- `set(alerts)` on a list of `Alert` values.  The `Alert` dataclass is
declared with the defaults `eq=True, frozen=False`, so Python sets its
`__hash__` to `None` and instances are unhashable: building a set from a
nonempty alert list raises `TypeError` when the first element is hashed.
Only the empty set can actually be built. -/
def pySetOfAlerts : List Alert → Except PyError (List Alert)
  | [] => .ok []
  | _ :: _ => .error .typeError

/-- Nonempty-intersection test on alert sets; models
`merged_alerts.intersection(cluster2_alerts)` being truthy.  (These sets are
only ever obtained from `pySetOfAlerts`, so on every non-raising path both
are empty and the test is false.) -/
def setsOverlap (m : List Alert) (l : List Alert) : Bool :=
  m.any (fun x => decide (x ∈ l))

/-- The inner `for j, cluster2 in enumerate(clusters[i+1:], i+1)` sweep of
`_merge_overlapping_clusters`: one left-to-right pass over the not-yet-used
clusters.  For each scanned cluster the source first builds
`cluster2_alerts = set(cluster2.alerts)`, which raises for a nonempty alert
list (the exception propagates, modeled by `Except`).  On success, returns
the final accumulated alert set, the overlapping clusters in scan order, and
the clusters left unconsumed (the complement of the `used_clusters` index
set, in order). -/
def mergeSweep (m : List Alert) (ov : List AlertCluster) :
    List AlertCluster →
    Except PyError (List Alert × List AlertCluster × List AlertCluster)
  | [] => .ok (m, ov, [])
  | c :: rest =>
    match pySetOfAlerts c.alerts with
    | .error e => .error e
    | .ok cset =>
      if setsOverlap m cset then mergeSweep (m ++ cset) (ov ++ [c]) rest
      else
        match mergeSweep m ov rest with
        | .error e => .error e
        | .ok r => .ok (r.1, r.2.1, c :: r.2.2)

/-- `all_alerts` deduplicated by alert id keeping the first occurrence, as in
`_create_merged_cluster` (`seen_ids`). -/
def dedupById (l : List Alert) : List Alert :=
  go l []
where
  go : List Alert → List String → List Alert
    | [], _ => []
    | a :: rest, seen =>
      if a.id ∈ seen then go rest seen else a :: go rest (seen ++ [a.id])

/-- `max(set(correlation_types), key=correlation_types.count)`: a type with
maximal multiplicity.  Python iterates the set in hash order; the model scans
candidates in first-occurrence order and keeps the first maximum, which picks
the same element whenever the maximum is unique (no property proved here
depends on the tie case).  The `[]` case never arises in the source (merged
groups have ≥ 2 constituents). -/
def mostFrequent (l : List CorrelationType) : CorrelationType :=
  match firstOccurrences l with
  | [] => .temporal
  | k :: ks =>
    ks.foldl (fun best c => if l.count best < l.count c then c else best) k

/-- `_create_merged_cluster` (lines 841-862): concatenate the member alerts,
deduplicate by id, take the most frequent constituent correlation type and
the mean of the constituent confidences, and build the cluster via
`_create_cluster`.  (In CPython this function is unreachable from the
merger: the merge loop raises before any overlap can be detected, see
`pySetOfAlerts`.) -/
def createMergedCluster (deps : List (String × List String))
    (clusters : List AlertCluster) : AlertCluster :=
  let allAlerts := clusters.flatMap (·.alerts)
  let uniqueAlerts := dedupById allAlerts
  let types := clusters.map (·.correlationType)
  let confs := clusters.map (·.confidenceScore)
  createCluster deps uniqueAlerts (mostFrequent types) (qmean confs)

/-- The outer loop of `_merge_overlapping_clusters`, with the fuel argument
standing for the loop bound `len(clusters)` (the unconsumed remainder is
never longer than the scanned tail, so fuel `≥ length` always suffices; the
fuel-exhausted clause is unreachable from `mergeOverlappingClusters`).  Each
iteration first builds `merged_alerts = set(cluster1.alerts)` (line 816),
which raises for a nonempty alert list; any exception raised there or in the
inner sweep propagates out of the whole function. -/
def mergeLoop (deps : List (String × List String)) :
    ℕ → List AlertCluster → Except PyError (List AlertCluster)
  | 0, _ => .ok []
  | _, [] => .ok []
  | fuel + 1, c :: rest =>
    match pySetOfAlerts c.alerts with
    | .error e => .error e
    | .ok m₀ =>
      match mergeSweep m₀ [c] rest with
      | .error e => .error e
      | .ok r =>
        match mergeLoop deps fuel r.2.2 with
        | .error e => .error e
        | .ok merged =>
          .ok ((if 1 < r.2.1.length then createMergedCluster deps r.2.1 else c)
            :: merged)

/-- `_merge_overlapping_clusters`: returns the merged list only when no
`set(...)` construction raises, i.e. only when every cluster's alert list is
empty; otherwise the `TypeError` propagates. -/
def mergeOverlappingClusters (deps : List (String × List String))
    (clusters : List AlertCluster) : Except PyError (List AlertCluster) :=
  mergeLoop deps clusters.length clusters

/-- The directed dependency graph of `_dependency_correlation`: one edge
`dep → service` per entry, in source iteration order
(`graph.add_edge(dep, service)`). -/
def buildEdges (deps : List (String × List String)) : List (String × String) :=
  deps.flatMap (fun p => p.2.map (fun d => (d, p.1)))

/-- The node set of the graph (`networkx` adds both endpoints of each edge),
as a first-occurrence list. -/
def graphNodes (edges : List (String × String)) : List String :=
  firstOccurrences (edges.flatMap (fun e => [e.1, e.2]))

/-- `graph.predecessors(s)`: sources of edges into `s`. -/
def predecessorsOf (edges : List (String × String)) (s : String) : List String :=
  firstOccurrences ((edges.filter (fun e => e.2 = s)).map (·.1))

/-- `graph.successors(s)`: targets of edges out of `s`. -/
def successorsOf (edges : List (String × String)) (s : String) : List String :=
  firstOccurrences ((edges.filter (fun e => e.1 = s)).map (·.2))

/-- One breadth-first step: all unvisited successors of the frontier. -/
def bfsStep (edges : List (String × String)) (frontier visited : List String) :
    List String :=
  firstOccurrences
    ((frontier.flatMap (successorsOf edges)).filter (fun n => n ∉ visited))

/-- Fueled breadth-first search for the directed distance from the frontier
to `target`. -/
def bfsGo (edges : List (String × String)) (target : String) :
    ℕ → List String → List String → ℕ → Option ℕ
  | 0, _, _, _ => none
  | fuel + 1, frontier, visited, d =>
    if target ∈ frontier then some d
    else if frontier = [] then none
    else bfsGo edges target fuel (bfsStep edges frontier (visited ++ frontier))
        (visited ++ frontier) (d + 1)

/-- `nx.shortest_path_length(graph, u, v)` (directed), returning `none` where
the source raises `NetworkXNoPath`.  (With `u` or `v` absent from the graph
`networkx` raises `NodeNotFound`, which the source does not catch; that case
is unreachable from `dependencyCorrelation`, whose services all lie on edges,
and is modeled as `none`.) -/
def shortestPathLength (edges : List (String × String)) (u v : String) :
    Option ℕ :=
  if u ∈ graphNodes edges ∧ v ∈ graphNodes edges then
    bfsGo edges v ((graphNodes edges).length + 1) [u] [] 0
  else none

/-- The ordered pairs `(services[i], services[j])` with `i < j`, as in the
double loop of `_calculate_dependency_confidence`. -/
def orderedPairs {α : Type} : List α → List (α × α)
  | [] => []
  | x :: xs => xs.map (fun y => (x, y)) ++ orderedPairs xs

/-- The running minimum distance of `_calculate_dependency_confidence`
(`float('inf')` modeled as `none`; unreachable pairs are skipped). -/
def minPairDistance (edges : List (String × String)) (services : List String) :
    Option ℕ :=
  (orderedPairs services).foldl
    (fun acc p =>
      match shortestPathLength edges p.1 p.2 with
      | none => acc
      | some d =>
        match acc with
        | none => some d
        | some m => some (min m d))
    none

/-- `_calculate_dependency_confidence`: `0.1` when every pair is unreachable,
else `max(0.1, 1 - min_distance/5)`. -/
def calculateDependencyConfidence (edges : List (String × String))
    (alerts : List Alert) : ℚ :=
  match minPairDistance edges (alerts.map (·.service)) with
  | none => 1/10
  | some d => max (1/10) (1 - (d : ℚ) / 5)

/-- Insertion into the `defaultdict(list)` grouping: appends to the bucket of
an existing key, else adds a new key at the end (dict insertion order). -/
def insertGroup : List (String × List Alert) → Alert → List (String × List Alert)
  | [], a => [(a.service, [a])]
  | (s, l) :: rest, a =>
    if s = a.service then (s, l ++ [a]) :: rest else (s, l) :: insertGroup rest a

/-- `service_alerts = defaultdict(list); for alert in alerts: ...append`. -/
def groupByService (alerts : List Alert) : List (String × List Alert) :=
  alerts.foldl insertGroup []

/-- `_dependency_correlation`: empty when no dependency map is configured;
otherwise, for each alerted service that is a node of the graph, collect the
alerts of its direct predecessor and successor services (note: not the
service's own alerts) and form a cluster when at least two are found. -/
def dependencyCorrelation (deps : List (String × List String))
    (alerts : List Alert) : List AlertCluster :=
  if deps = [] then []
  else
    let edges := buildEdges deps
    let groups := groupByService alerts
    groups.filterMap (fun g =>
      if g.1 ∈ graphNodes edges then
        let related := firstOccurrences
          (predecessorsOf edges g.1 ++ successorsOf edges g.1)
        let relatedAlerts := related.flatMap (fun s =>
          match assocLookup groups s with
          | some l => l
          | none => [])
        if 1 < relatedAlerts.length then
          some (createCluster deps relatedAlerts .dependency
            (calculateDependencyConfidence edges relatedAlerts))
        else none
      else none)

/-- A learned pattern dict of `self.alert_patterns` (§9 of the spec models
it as this tagged record).  `service`/`titleSub` being `none` models the key
being absent or its value falsy, which skips the corresponding check in
`_matches_pattern`; `confidence` carries `pattern.get('confidence', 0.5)`,
so a dict without the key is modeled with `confidence := 1/2`. -/
structure LearnedPattern where
  service : Option String
  titleSub : Option String
  confidence : ℚ
deriving DecidableEq, Repr

/-- `needle` occurs at the start of `hay`. -/
def beginsWith : List Char → List Char → Bool
  | [], _ => true
  | _ :: _, [] => false
  | a :: as, b :: bs => a = b && beginsWith as bs

/-- Python's substring test `needle in hay`. -/
def subOccurs : List Char → List Char → Bool
  | needle, [] => needle.isEmpty
  | needle, c :: rest => beginsWith needle (c :: rest) || subOccurs needle rest

/-- `_matches_pattern`. -/
def matchesPat (a : Alert) (p : LearnedPattern) : Bool :=
  (match p.service with
    | some s => decide (s = a.service)
    | none => true) &&
  (match p.titleSub with
    | some t => subOccurs t.data a.title.data
    | none => true)

/-- `_pattern_correlation`: for each learned pattern (in table order), the
matching alerts form a cluster when at least two match, with the pattern's
stored confidence and correlation type `FREQUENCY`. -/
def patternCorrelation (deps : List (String × List String))
    (pats : List (String × LearnedPattern)) (alerts : List Alert) :
    List AlertCluster :=
  pats.filterMap (fun p =>
    let matching := alerts.filter (fun a => matchesPat a p.2)
    if 1 < matching.length then
      some (createCluster deps matching .frequency p.2.confidence)
    else none)

/-- The `f"{alert.service}:{alert.title}"` grouping key of
`_detect_noise_patterns` and `_is_noise_alert`. -/
def alertKey (a : Alert) : String := a.service ++ ":" ++ a.title

/-- The multiplicity of a key in the window. -/
def keyCount (alerts : List Alert) (k : String) : ℕ :=
  (alerts.filter (fun a => alertKey a = k)).length

/-- The keys flagged by `_detect_noise_patterns`, in first-occurrence order
(`defaultdict` iteration order): those with `frequency > len(alerts) * 0.1`.
The source compares the integer count against the float `len(alerts)*0.1`;
for every window size `N`, `float(N*0.1) ≥ N/10` exactly, with equality or an
excess smaller than `1`, so an integer exceeds `float(N*0.1)` iff it exceeds
the exact rational `N/10` — the model uses the exact rational. -/
def noiseFlaggedKeys (alerts : List Alert) : List String :=
  (firstOccurrences (alerts.map alertKey)).filter
    (fun k => (alerts.length : ℚ) * (1/10) < (keyCount alerts k : ℚ))

/-- `_detect_noise_patterns`: returns the flagged keys and the updated
suppression set `self.noise_patterns` (the old set plus every flagged key;
the per-pattern result dicts carry no information beyond the key and its
count, so the flagged-key list stands for them). -/
def detectNoisePatterns (alerts : List Alert) (noise : List String) :
    List String × List String :=
  let flagged := noiseFlaggedKeys alerts
  (flagged, noise ++ flagged.filter (fun k => k ∉ noise))

/-- `_is_noise_alert`. -/
def isNoiseAlert (noise : List String) (a : Alert) : Bool :=
  decide (alertKey a ∈ noise)

/-- `self.correlation_stats`. -/
structure CorrelationStats where
  totalAlerts : ℕ
  correlatedAlerts : ℕ
  clustersCreated : ℕ
  falsePositives : ℕ
  noiseSuppressed : ℕ
deriving DecidableEq, Repr

/-- The stats dict as initialized in `__init__` (a fresh engine). -/
def initialStats : CorrelationStats :=
  { totalAlerts := 0
    correlatedAlerts := 0
    clustersCreated := 0
    falsePositives := 0
    noiseSuppressed := 0 }

/-- Result dict of `get_correlation_metrics`. -/
structure CorrelationMetrics where
  totalAlerts : ℕ
  correlatedAlerts : ℕ
  correlationRate : ℚ
  clustersCreated : ℕ
  noiseSuppressed : ℕ
  noiseReductionRate : ℚ
  activeClusters : ℕ
  correlationRules : ℕ
deriving DecidableEq, Repr

/-- `get_correlation_metrics`: both rates guard the division with
`if total_alerts > 0 else 0`. -/
def getCorrelationMetrics (stats : CorrelationStats)
    (clusters : List (String × AlertCluster)) (rulesCount : ℕ) :
    CorrelationMetrics :=
  { totalAlerts := stats.totalAlerts
    correlatedAlerts := stats.correlatedAlerts
    correlationRate :=
      if 0 < stats.totalAlerts then
        (stats.correlatedAlerts : ℚ) / (stats.totalAlerts : ℚ) * 100
      else 0
    clustersCreated := stats.clustersCreated
    noiseSuppressed := stats.noiseSuppressed
    noiseReductionRate :=
      if 0 < stats.totalAlerts then
        (stats.noiseSuppressed : ℚ) / (stats.totalAlerts : ℚ) * 100
      else 0
    activeClusters :=
      (clusters.filter (fun p => p.2.resolvedAt = none)).length
    correlationRules := rulesCount }

/-- `update_alert_status`: finds the first alert with the given id, sets its
status, and conditionally stamps `resolved_at` (only when the new status is
`RESOLVED` *and* a truthy `resolved_at` argument was supplied) or
`acknowledged_at`/`acknowledged_by` (when the new status is `ACKNOWLEDGED`;
`now` is the `datetime.now()` stamp).  All later alerts are untouched
(`break`), and a missing id is a silent no-op. -/
def updateAlertStatus (alerts : List Alert) (aid : String)
    (status : AlertStatus) (resolvedAt : Option ℚ) (ackBy : Option String)
    (now : ℚ) : List Alert :=
  match alerts with
  | [] => []
  | a :: rest =>
    if a.id = aid then
      (match status, resolvedAt with
        | .resolved, some t => { a with status := status, resolvedAt := some t }
        | .acknowledged, _ =>
          { a with
            status := status
            acknowledgedAt := some now
            acknowledgedBy := ackBy }
        | _, _ => { a with status := status }) :: rest
    else a :: updateAlertStatus rest aid status resolvedAt ackBy now

/-- The cluster `severity` property: highest severity among member alerts
(critical > warning > info > unknown). -/
def clusterSeverity (c : AlertCluster) : AlertSeverity :=
  let sevs := c.alerts.map (·.severity)
  if AlertSeverity.critical ∈ sevs then .critical
  else if AlertSeverity.warning ∈ sevs then .warning
  else if AlertSeverity.info ∈ sevs then .info
  else .unknown

/-- One entry of the incident timeline built by `_build_incident_timeline`
(the `type: 'alert'` constant field is omitted). -/
structure TimelineEvent where
  timestamp : ℚ
  service : String
  host : String
  severity : AlertSeverity
  title : String
deriving DecidableEq, Repr

/-- `_build_incident_timeline`, sorted chronologically.  (The source sorts
the ISO-8601 timestamp strings; lexicographic ISO order is chronological
order, modeled by sorting the rational timestamps.  The `cluster_id` tag is
the omitted uuid.) -/
def buildIncidentTimeline (clusters : List AlertCluster) : List TimelineEvent :=
  List.insertionSort (fun x y => x.timestamp ≤ y.timestamp)
    (clusters.flatMap (fun c => c.alerts.map (fun a =>
      { timestamp := a.timestamp
        service := a.service
        host := a.host
        severity := a.severity
        title := a.title })))

/-- One evidence entry of `_perform_root_cause_analysis`. -/
structure Evidence where
  kind : String
  description : String
  weight : ℚ
deriving DecidableEq, Repr

/-- Result dict of `_perform_root_cause_analysis` (`method` is the constant
`'heuristic'`, omitted). -/
structure RootCauseReport where
  candidates : List String
  confidence : ℚ
  evidence : List Evidence
deriving DecidableEq, Repr

/-- `_perform_root_cause_analysis`. -/
def performRootCauseAnalysis (deps : List (String × List String))
    (c : AlertCluster) : RootCauseReport :=
  let temporalEvidence : List Evidence :=
    if c.correlationType = .temporal then
      match earliestAlert c.alerts with
      | some a =>
        [{ kind := "temporal"
           description := "First alert from " ++ a.service ++ " at " ++
             toString a.timestamp
           weight := 8/10 }]
      | none => []
    else []
  let depEvidence : List Evidence :=
    if c.correlationType = .dependency then
      let services := c.alerts.map (·.service)
      let upstream := services.flatMap (fun s =>
        match assocLookup deps s with
        | some ds => ds.filter (fun d => d ∈ services)
        | none => [])
      if upstream ≠ [] then
        [{ kind := "dependency"
           description := "Upstream services affected: " ++
             String.intercalate ", " (firstOccurrences upstream)
           weight := 9/10 }]
      else []
    else []
  { candidates := c.rootCauseCandidates
    confidence := c.confidenceScore
    evidence := temporalEvidence ++ depEvidence }

/-- Result dict of `_assess_incident_impact`. -/
structure IncidentImpact where
  affectedServices : ℕ
  affectedHosts : ℕ
  severityScore : ℕ
  estimatedUsersAffected : ℕ
  businessImpact : String
deriving DecidableEq, Repr

/-- The per-alert severity weight of `_assess_incident_impact`
(critical=4, warning=2, info=1, unknown=0). -/
def severityWeight : AlertSeverity → ℕ
  | .critical => 4
  | .warning => 2
  | .info => 1
  | .unknown => 0

/-- `_assess_incident_impact`. -/
def assessIncidentImpact (c : AlertCluster) : IncidentImpact :=
  let services := firstOccurrences (c.alerts.map (·.service))
  let hosts := firstOccurrences (c.alerts.map (·.host))
  let total := (c.alerts.map (fun a => severityWeight a.severity)).sum
  { affectedServices := services.length
    affectedHosts := hosts.length
    severityScore := total
    estimatedUsersAffected := services.length * 1000
    businessImpact :=
      if 10 < total then "high" else if 5 < total then "medium" else "low" }

/-- `_generate_recommendations`. -/
def generateRecommendations (c : AlertCluster) : List String :=
  let byType : List String :=
    match c.correlationType with
    | .dependency =>
      ["Check service dependencies and upstream components",
       "Verify network connectivity between services"]
    | .spatial =>
      ["Investigate infrastructure issues on affected hosts",
       "Check system resources (CPU, memory, disk)"]
    | .temporal =>
      ["Review recent deployments or configuration changes",
       "Check for scheduled maintenance or batch jobs"]
    | _ => []
  let bySeverity : List String :=
    if clusterSeverity c = .critical then
      ["Escalate to on-call engineer immediately",
       "Consider activating incident response team"]
    else []
  let services := firstOccurrences (c.alerts.map (·.service))
  let dbRec : List String :=
    if "database" ∈ services then
      ["Check database connections and query performance"]
    else []
  let apiRec : List String :=
    if services.any (fun s => subOccurs "api".data (s.data.map Char.toLower))
    then ["Monitor API response times and error rates"]
    else []
  byType ++ bySeverity ++ dbRec ++ apiRec

/-- `_classify_incident_severity`. -/
def classifyIncidentSeverity (impact : IncidentImpact) : IncidentSeverity :=
  if 15 ≤ impact.severityScore ∨ 5 ≤ impact.affectedServices then .sev1
  else if 10 ≤ impact.severityScore ∨ 3 ≤ impact.affectedServices then .sev2
  else if 5 ≤ impact.severityScore ∨ 1 ≤ impact.affectedServices then .sev3
  else .sev4

/-- `_estimate_incident_duration`, in minutes:
`30 × (len(alerts)/10) × (2 if cluster severity is critical else 1)`. -/
def estimateIncidentDuration (c : AlertCluster) : ℚ :=
  30 * ((c.alerts.length : ℚ) / 10) *
    (if clusterSeverity c = .critical then 2 else 1)

/-- The `IncidentAnalysis` dataclass (`incident_id` is the omitted uuid and
`created_at` the omitted stamp; `estimated_duration` in minutes). -/
structure IncidentAnalysis where
  clusters : List AlertCluster
  timeline : List TimelineEvent
  rootCauseAnalysis : RootCauseReport
  impactAnalysis : IncidentImpact
  recommendations : List String
  severity : IncidentSeverity
  estimatedDuration : ℚ
  affectedServices : List String
deriving DecidableEq, Repr

/-- The error taxonomy of the spec relevant to `analyze_incident`: the source
raises `ValueError(f"Cluster {cluster_id} not found")`. -/
inductive AnalysisError where
  | notFound
deriving DecidableEq, Repr

/-- `analyze_incident`: the very first statement fails on an unknown cluster
id; otherwise the analysis is assembled from the pieces above. -/
def analyzeIncident (deps : List (String × List String))
    (clusters : List (String × AlertCluster)) (cid : String) :
    Except AnalysisError IncidentAnalysis :=
  match assocLookup clusters cid with
  | none => .error .notFound
  | some c =>
    let impact := assessIncidentImpact c
    .ok
      { clusters := [c]
        timeline := buildIncidentTimeline [c]
        rootCauseAnalysis := performRootCauseAnalysis deps c
        impactAnalysis := impact
        recommendations := generateRecommendations c
        severity := classifyIncidentSeverity impact
        estimatedDuration := estimateIncidentDuration c
        affectedServices := firstOccurrences (c.alerts.map (·.service)) }

/-- Helper for building concrete alerts in witnesses and counterexamples. -/
def mkAlert (aid : String) (ts : ℚ) (service host title : String) : Alert :=
  { id := aid
    timestamp := ts
    service := service
    host := host
    severity := .warning
    status := .firing
    title := title
    description := "" }

/-! ### Helper lemmas -/

theorem assocLookup_eq_none {β : Type} (l : List (String × β)) (k : String)
    (h : ∀ p ∈ l, p.1 ≠ k) : assocLookup l k = none := by
  induction l with
  | nil => rfl
  | cons p rest ih =>
    have hp : p.1 ≠ k := h p (by simp)
    simp only [assocLookup, if_neg hp]
    exact ih (fun q hq => h q (by simp [hq]))

/-! ### C9: metrics are total on a fresh engine -/

/-- **C9.** `get_correlation_metrics` is total even when the total-alerts
counter is zero: both `correlation_rate` and `noise_reduction_rate` are
reported as `0` instead of dividing by zero. -/
theorem metrics_rates_zero_when_no_alerts (stats : CorrelationStats)
    (clusters : List (String × AlertCluster)) (rulesCount : ℕ)
    (h : stats.totalAlerts = 0) :
    (getCorrelationMetrics stats clusters rulesCount).correlationRate = 0 ∧
    (getCorrelationMetrics stats clusters rulesCount).noiseReductionRate = 0 := by
  simp [getCorrelationMetrics, h]

/-- Witness for C9 at the stats of a fresh engine. -/
theorem metrics_rates_zero_when_no_alerts_witness :
    (getCorrelationMetrics initialStats [] 2).correlationRate = 0 ∧
    (getCorrelationMetrics initialStats [] 2).noiseReductionRate = 0 :=
  metrics_rates_zero_when_no_alerts initialStats [] 2 rfl

/-! ### C7: incident analysis on an unknown cluster id -/

/-- **C7.** For every cluster id not present in the cluster store,
`analyze_incident` fails with the not-found error — it neither raises a
different error nor returns a default `IncidentAnalysis` (the result is
`.error .notFound`, not any `.ok _`). -/
theorem analyze_incident_unknown_id_not_found
    (deps : List (String × List String))
    (clusters : List (String × AlertCluster)) (cid : String)
    (h : ∀ p ∈ clusters, p.1 ≠ cid) :
    analyzeIncident deps clusters cid = .error .notFound := by
  simp [analyzeIncident, assocLookup_eq_none clusters cid h]

/-- Witness for C7: an unknown id on a concrete store. -/
theorem analyze_incident_unknown_id_not_found_witness :
    analyzeIncident [] [] "nope" = .error .notFound :=
  analyze_incident_unknown_id_not_found [] [] "nope" (by simp)

/-! ### C6: root-cause candidates are never empty -/

/-- **C6.** For every nonempty alert group and every correlation type, the
root-cause candidate list computed at cluster creation is nonempty, and it
is exactly `["unknown"]` whenever the strategy-specific heuristics produce
no candidate. -/
theorem root_causes_nonempty_with_unknown_fallback (alerts : List Alert)
    (ct : CorrelationType) (deps : List (String × List String))
    (_h : alerts ≠ []) :
    identifyRootCauses alerts ct deps ≠ [] ∧
    (rootCauseHeuristics alerts ct deps = [] →
      identifyRootCauses alerts ct deps = ["unknown"]) := by
  by_cases hrc : rootCauseHeuristics alerts ct deps = []
  · constructor
    · simp [identifyRootCauses, hrc]
    · intro _
      simp [identifyRootCauses, hrc]
  · constructor
    · simp [identifyRootCauses, hrc]
    · intro hrc'
      exact absurd hrc' hrc

/-- Witness for C6: a similarity cluster with no heuristic falls back to
`["unknown"]`. -/
theorem root_causes_nonempty_with_unknown_fallback_witness :
    identifyRootCauses [mkAlert "w1" 0 "s" "h" "t"] .similarity [] ≠ [] ∧
    (rootCauseHeuristics [mkAlert "w1" 0 "s" "h" "t"] .similarity [] = [] →
      identifyRootCauses [mkAlert "w1" 0 "s" "h" "t"] .similarity []
        = ["unknown"]) :=
  root_causes_nonempty_with_unknown_fallback
    [mkAlert "w1" 0 "s" "h" "t"] .similarity [] (by simp)

/-! ### C10: updating a status to resolved without a timestamp -/

/-- **C10.** Updating a stored alert's status to `RESOLVED` without a
resolved-at timestamp changes only the status field of the first alert with
the given id: its `resolved_at` (and every other field) is untouched, every
other stored alert is unchanged, and an id matching no stored alert leaves
the whole store unchanged. -/
theorem update_status_resolved_frame (alerts : List Alert) (aid : String)
    (ackBy : Option String) (now : ℚ) :
    ((∀ a ∈ alerts, a.id ≠ aid) →
      updateAlertStatus alerts aid .resolved none ackBy now = alerts) ∧
    (∀ pre x post, alerts = pre ++ x :: post → (∀ b ∈ pre, b.id ≠ aid) →
      x.id = aid →
      updateAlertStatus alerts aid .resolved none ackBy now =
        pre ++ { x with status := AlertStatus.resolved } :: post) := by
  constructor
  · intro h
    induction alerts with
    | nil => rfl
    | cons a rest ih =>
      have ha : a.id ≠ aid := h a (by simp)
      simp only [updateAlertStatus, if_neg ha]
      rw [ih (fun b hb => h b (by simp [hb]))]
  · intro pre
    induction pre generalizing alerts with
    | nil =>
      intro x post heq _ hx
      subst heq
      simp [updateAlertStatus, hx]
    | cons b pre' ih =>
      intro x post heq hpre hx
      subst heq
      have hb : b.id ≠ aid := hpre b (by simp)
      simp only [updateAlertStatus, if_neg hb, List.cons_append]
      exact congrArg (fun l => b :: l)
        (ih (pre' ++ x :: post) x post rfl
          (fun q hq => hpre q (by simp [hq])) hx)

/-- Witness for C10: updating the second of two stored alerts. -/
theorem update_status_resolved_frame_witness :
    updateAlertStatus [mkAlert "u1" 0 "s" "h" "t", mkAlert "u2" 1 "s" "h" "t"]
        "u2" .resolved none none 5 =
      [mkAlert "u1" 0 "s" "h" "t",
       { mkAlert "u2" 1 "s" "h" "t" with status := AlertStatus.resolved }] :=
  (update_status_resolved_frame
      [mkAlert "u1" 0 "s" "h" "t", mkAlert "u2" 1 "s" "h" "t"]
      "u2" none 5).2
    [mkAlert "u1" 0 "s" "h" "t"] (mkAlert "u2" 1 "s" "h" "t") [] rfl
    (by decide) (by decide)

/-! ### C8: noise flagging threshold is strict -/

theorem mem_foldl_firstOccurrences {α : Type} [DecidableEq α]
    (l : List α) (acc : List α) (x : α) :
    x ∈ l.foldl (fun acc y => if y ∈ acc then acc else acc ++ [y]) acc ↔
      x ∈ acc ∨ x ∈ l := by
  induction l generalizing acc with
  | nil => simp
  | cons y ys ih =>
    simp only [List.foldl_cons]
    by_cases hy : y ∈ acc
    · rw [if_pos hy, ih]
      constructor
      · rintro (h | h)
        · exact Or.inl h
        · exact Or.inr (by simp [h])
      · rintro (h | h)
        · exact Or.inl h
        · rcases List.mem_cons.mp h with rfl | h
          · exact Or.inl hy
          · exact Or.inr h
    · rw [if_neg hy, ih]
      simp only [List.mem_append, List.mem_singleton, List.mem_cons]
      tauto

theorem mem_firstOccurrences {α : Type} [DecidableEq α] (l : List α) (x : α) :
    x ∈ firstOccurrences l ↔ x ∈ l := by
  unfold firstOccurrences
  rw [mem_foldl_firstOccurrences]
  simp

/-- **C8.** A `service:title` signature is flagged by
`_detect_noise_patterns` over a window of `N` alerts iff its occurrence
count strictly exceeds `N/10` (10% of `N`), and the updated suppression set
contains exactly the old members and the flagged signatures.  At a count of
exactly 10% of the window the signature is not flagged (the inequality is
strict). -/
theorem noise_flagged_iff_count_exceeds_tenth (alerts : List Alert)
    (noise : List String) (k : String) :
    (k ∈ noiseFlaggedKeys alerts ↔
      (alerts.length : ℚ) / 10 < (keyCount alerts k : ℚ)) ∧
    (k ∈ (detectNoisePatterns alerts noise).2 ↔
      k ∈ noise ∨ (alerts.length : ℚ) / 10 < (keyCount alerts k : ℚ)) := by
  have hiff : k ∈ noiseFlaggedKeys alerts ↔
      (alerts.length : ℚ) / 10 < (keyCount alerts k : ℚ) := by
    unfold noiseFlaggedKeys
    rw [List.mem_filter]
    constructor
    · rintro ⟨-, hcond⟩
      have := of_decide_eq_true hcond
      linarith [this]
    · intro hlt
      refine ⟨?_, by rw [decide_eq_true_iff]; linarith⟩
      rw [mem_firstOccurrences]
      have hpos : 0 < keyCount alerts k := by
        rcases Nat.eq_zero_or_pos (keyCount alerts k) with hz | hp
        · rw [hz] at hlt
          have h0 : (0:ℚ) ≤ (alerts.length : ℚ) / 10 := by positivity
          norm_num at hlt
          linarith
        · exact hp
      obtain ⟨a, ha, hk⟩ : ∃ a ∈ alerts, alertKey a = k := by
        have : (alerts.filter (fun a => alertKey a = k)) ≠ [] := by
          intro hnil
          rw [keyCount, hnil] at hpos
          simp at hpos
        obtain ⟨a, ha⟩ := List.exists_mem_of_ne_nil _ this
        have := List.mem_filter.mp ha
        exact ⟨a, this.1, of_decide_eq_true this.2⟩
      exact hk ▸ List.mem_map_of_mem alertKey ha
  refine ⟨hiff, ?_⟩
  unfold detectNoisePatterns
  simp only [List.mem_append, List.mem_filter]
  constructor
  · rintro (h | ⟨hf, -⟩)
    · exact Or.inl h
    · exact Or.inr (hiff.mp hf)
  · rintro (h | h)
    · exact Or.inl h
    · by_cases hn : k ∈ noise
      · exact Or.inl hn
      · exact Or.inr (by simp [hiff.mpr h, hn])

/-! ### C5: fingerprints ignore digits in titles -/

theorem collapseGo_true_of_digits (d : List Char)
    (hd : ∀ c ∈ d, c.isDigit = true) (l : List Char) :
    collapseGo true (d ++ l) = collapseGo true l := by
  induction d with
  | nil => rfl
  | cons c cs ih =>
    have hc : c.isDigit = true := hd c (by simp)
    simp only [List.cons_append, collapseGo, hc, if_pos, if_true]
    exact ih (fun x hx => hd x (by simp [hx]))

theorem collapseGo_true_eq_false (l : List Char)
    (hb : ∀ c ∈ l.head?, c.isDigit = false) :
    collapseGo true l = collapseGo false l := by
  cases l with
  | nil => rfl
  | cons c cs =>
    have hc : c.isDigit = false := hb c (by simp)
    simp [collapseGo, hc]

theorem digitRunEquiv_collapse {l₁ l₂ : List Char} (h : DigitRunEquiv l₁ l₂) :
    collapseGo false l₁ = collapseGo false l₂ := by
  induction h with
  | nil => rfl
  | cons c hc _ ih => simp [collapseGo, hc, ih]
  | runs d₁ d₂ hne₁ hne₂ hd₁ hd₂ hb₁ hb₂ _ ih =>
    rename_i l₁' l₂' _
    obtain ⟨c₁, d₁', rfl⟩ : ∃ c cs, d₁ = c :: cs := by
      cases d₁ with
      | nil => exact absurd rfl hne₁
      | cons c cs => exact ⟨c, cs, rfl⟩
    obtain ⟨c₂, d₂', rfl⟩ : ∃ c cs, d₂ = c :: cs := by
      cases d₂ with
      | nil => exact absurd rfl hne₂
      | cons c cs => exact ⟨c, cs, rfl⟩
    have hc₁ : c₁.isDigit = true := hd₁ c₁ (by simp)
    have hc₂ : c₂.isDigit = true := hd₂ c₂ (by simp)
    simp only [List.cons_append, collapseGo, hc₁, hc₂, if_true,
      Bool.false_eq_true, if_false, List.append_eq]
    rw [collapseGo_true_of_digits d₁' (fun x hx => hd₁ x (by simp [hx])),
      collapseGo_true_of_digits d₂' (fun x hx => hd₂ x (by simp [hx])),
      collapseGo_true_eq_false _ hb₁, collapseGo_true_eq_false _ hb₂, ih]

/-- **C5.** The fingerprint is a pure function of service, host, and
digit-normalized title: alerts agreeing on service, host, and title receive
the same fingerprint whatever their other fields, and alerts whose
(lowercased) titles differ only in digit runs receive the same fingerprint
as well. -/
theorem fingerprint_pure_and_digit_blind :
    (∀ a₁ a₂ : Alert, a₁.service = a₂.service → a₁.host = a₂.host →
      a₁.title = a₂.title → generateFingerprint a₁ = generateFingerprint a₂) ∧
    (∀ a₁ a₂ : Alert, a₁.service = a₂.service → a₁.host = a₂.host →
      DigitRunEquiv (a₁.title.data.map Char.toLower)
        (a₂.title.data.map Char.toLower) →
      generateFingerprint a₁ = generateFingerprint a₂) := by
  have key : ∀ a₁ a₂ : Alert, a₁.service = a₂.service → a₁.host = a₂.host →
      DigitRunEquiv (a₁.title.data.map Char.toLower)
        (a₂.title.data.map Char.toLower) →
      generateFingerprint a₁ = generateFingerprint a₂ := by
    intro a₁ a₂ hs hh ht
    unfold generateFingerprint normalizeTitle collapseDigits
    rw [hs, hh, digitRunEquiv_collapse ht]
  refine ⟨?_, key⟩
  intro a₁ a₂ hs hh ht
  unfold generateFingerprint normalizeTitle
  rw [hs, hh, ht]

/-- Witness for C5: "Disk 85% full" and "Disk 92% full" on the same service
and host fingerprint identically. -/
theorem fingerprint_pure_and_digit_blind_witness :
    generateFingerprint (mkAlert "f1" 0 "disk-svc" "host-1" "Disk 85% full")
      = generateFingerprint (mkAlert "f2" 5 "disk-svc" "host-1" "Disk 92% full") := by
  apply fingerprint_pure_and_digit_blind.2
  · rfl
  · rfl
  · have e₁ : (mkAlert "f1" 0 "disk-svc" "host-1"
        "Disk 85% full").title.data.map Char.toLower
        = "disk 85% full".data := by decide
    have e₂ : (mkAlert "f2" 5 "disk-svc" "host-1"
        "Disk 92% full").title.data.map Char.toLower
        = "disk 92% full".data := by decide
    rw [e₁, e₂]
    show DigitRunEquiv
      ('d' :: 'i' :: 's' :: 'k' :: ' ' :: '8' :: '5' :: '%' :: ' ' ::
        'f' :: 'u' :: 'l' :: 'l' :: [])
      ('d' :: 'i' :: 's' :: 'k' :: ' ' :: '9' :: '2' :: '%' :: ' ' ::
        'f' :: 'u' :: 'l' :: 'l' :: [])
    refine .cons 'd' (by decide) (.cons 'i' (by decide) (.cons 's' (by decide)
      (.cons 'k' (by decide) (.cons ' ' (by decide) ?_))))
    exact .runs ['8', '5'] ['9', '2'] (by decide) (by decide) (by decide)
      (by decide) (by decide) (by decide)
      (.cons '%' (by decide) (.cons ' ' (by decide) (.cons 'f' (by decide)
        (.cons 'u' (by decide) (.cons 'l' (by decide)
          (.cons 'l' (by decide) .nil))))))

/-! ### C2 and C3: confidence score ranges and the temporal formula -/

theorem diffs_nonneg : ∀ (l : List ℚ), List.Sorted (· ≤ ·) l →
    ∀ g ∈ diffs l, 0 ≤ g
  | [], _, g, hg => by simp [diffs] at hg
  | [_], _, g, hg => by simp [diffs] at hg
  | x :: y :: xs, h, g, hg => by
    have hxy : x ≤ y := (List.sorted_cons.mp h).1 y (by simp)
    have htail : List.Sorted (· ≤ ·) (y :: xs) := (List.sorted_cons.mp h).2
    simp only [diffs, List.tail_cons, List.zipWith_cons_cons,
      List.mem_cons] at hg
    rcases hg with rfl | hg
    · linarith
    · exact diffs_nonneg (y :: xs) htail g (by simpa [diffs] using hg)

theorem qmean_nonneg (l : List ℚ) (h : ∀ x ∈ l, 0 ≤ x) : 0 ≤ qmean l :=
  div_nonneg (List.sum_nonneg h) (by positivity)

theorem qmean_le_one (l : List ℚ) (h : ∀ x ∈ l, x ≤ 1) : qmean l ≤ 1 := by
  unfold qmean
  rcases eq_or_ne l [] with rfl | hne
  · norm_num
  · have hlen : 0 < (l.length : ℚ) := by
      have := List.length_pos.mpr hne
      positivity
    rw [div_le_one hlen]
    have := List.sum_le_card_nsmul l 1 h
    simpa [nsmul_eq_mul] using this

theorem gapsOf_nonneg (alerts : List Alert) : ∀ g ∈ gapsOf alerts, 0 ≤ g := by
  intro g hg
  exact diffs_nonneg _ (List.sorted_insertionSort _ _) g hg

/-- **C2 (amended).** The temporal, spatial, and dependency confidences
always lie in `[0,1]` (the temporal one for any nonnegative standard
deviation of the gaps, hence for the true one).  The similarity confidence
is the mean of the (nonempty) similarity-matrix entries, so it lies in
`[0,1]` whenever those entries do — as cosine similarities of nonnegative
TF-IDF vectors are.  The pattern strategy attaches the stored pattern
confidence to its clusters unclamped, so those scores lie in `[0,1]`
exactly when the stored confidences do (a learned pattern with a confidence
outside `[0,1]` is copied verbatim onto the cluster; see the
counterexample). -/
theorem confidence_range_strategies :
    (∀ (alerts : List Alert) (std : ℚ), 0 ≤ std →
      0 ≤ calculateTemporalConfidence alerts std ∧
        calculateTemporalConfidence alerts std ≤ 1) ∧
    (∀ alerts : List Alert, 0 ≤ calculateSpatialConfidence alerts ∧
      calculateSpatialConfidence alerts ≤ 1) ∧
    (∀ (edges : List (String × String)) (alerts : List Alert),
      0 ≤ calculateDependencyConfidence edges alerts ∧
        calculateDependencyConfidence edges alerts ≤ 1) ∧
    (∀ matrix : List (List ℚ), matrix.flatten ≠ [] →
      (∀ x ∈ matrix.flatten, 0 ≤ x ∧ x ≤ 1) →
      0 ≤ calculateSimilarityConfidence matrix ∧
        calculateSimilarityConfidence matrix ≤ 1) ∧
    (∀ (deps : List (String × List String))
      (pats : List (String × LearnedPattern)) (alerts : List Alert),
      (∀ p ∈ pats, 0 ≤ p.2.confidence ∧ p.2.confidence ≤ 1) →
      ∀ c ∈ patternCorrelation deps pats alerts,
        0 ≤ c.confidenceScore ∧ c.confidenceScore ≤ 1) := by
  refine ⟨?_, ?_, ?_, ?_, ?_⟩
  · intro alerts std hstd
    unfold calculateTemporalConfidence
    split
    · norm_num
    · have havg : 0 ≤ qmean (gapsOf alerts) :=
        qmean_nonneg _ (gapsOf_nonneg alerts)
      have hc1low : (1/10 : ℚ) ≤ max (1/10) (1 - qmean (gapsOf alerts) / 300) :=
        le_max_left _ _
      have hc1high : max (1/10 : ℚ) (1 - qmean (gapsOf alerts) / 300) ≤ 1 := by
        apply max_le
        · norm_num
        · have : 0 ≤ qmean (gapsOf alerts) / 300 := by positivity
          linarith
      by_cases hstd0 : 0 < std
      · have hfid : 0 ≤ std / qmean (gapsOf alerts) := by positivity
        have hflow : (1/10 : ℚ) ≤
            max (1/10) (1 - std / qmean (gapsOf alerts)) := le_max_left _ _
        have hfhigh : max (1/10 : ℚ) (1 - std / qmean (gapsOf alerts)) ≤ 1 := by
          apply max_le
          · norm_num
          · linarith
        simp only [if_pos hstd0]
        constructor
        · apply le_min
          · norm_num
          · nlinarith
        · exact min_le_left _ _
      · simp only [if_neg hstd0]
        constructor
        · apply le_min
          · norm_num
          · linarith
        · exact min_le_left _ _
  · intro alerts
    unfold calculateSpatialConfidence
    split <;> norm_num
  · intro edges alerts
    unfold calculateDependencyConfidence
    split
    · norm_num
    · rename_i d _
      have hd : (0:ℚ) ≤ (d : ℚ) / 5 := by positivity
      constructor
      · exact le_trans (by norm_num) (le_max_left _ _)
      · apply max_le
        · norm_num
        · linarith
  · intro matrix _hne hbound
    unfold calculateSimilarityConfidence
    exact ⟨qmean_nonneg _ (fun x hx => (hbound x hx).1),
      qmean_le_one _ (fun x hx => (hbound x hx).2)⟩
  · intro deps pats alerts hp c hc
    unfold patternCorrelation at hc
    rw [List.mem_filterMap] at hc
    obtain ⟨p, hpmem, hsome⟩ := hc
    by_cases hlen : 1 < (alerts.filter (fun a => matchesPat a p.2)).length
    · rw [if_pos hlen, Option.some_inj] at hsome
      have : c.confidenceScore = p.2.confidence := by
        rw [← hsome]
        rfl
      rw [this]
      exact hp p hpmem
    · rw [if_neg hlen] at hsome
      exact absurd hsome (by simp)

/-- A learned pattern whose stored confidence lies outside `[0,1]`. -/
def badPattern : LearnedPattern :=
  { service := some "db", titleSub := none, confidence := 2 }

/-- A learned pattern with a well-formed stored confidence. -/
def goodPattern : LearnedPattern :=
  { service := some "db", titleSub := none, confidence := 1 }

/-- Two firing alerts on service `db`. -/
def dbAlertX : Alert := mkAlert "x1" 0 "db" "h1" "db down"

/-- Second alert on service `db`. -/
def dbAlertY : Alert := mkAlert "x2" 1 "db" "h2" "db slow"

/-- Counterexample to C2 as stated: with a learned-pattern table entry whose
stored confidence is `2`, the pattern strategy emits a cluster whose
confidence score is `2`, outside `[0,1]`. -/
theorem pattern_confidence_out_of_range_cex :
    (patternCorrelation [] [("p1", badPattern)] [dbAlertX, dbAlertY]).map
      (·.confidenceScore) = [2] ∧ ¬ ((2:ℚ) ≤ 1) := by
  constructor
  · rfl
  · norm_num

/-- Witness for C2 (amended), at a concrete temporal input, a concrete
similarity matrix, and a concrete pattern cluster. -/
theorem confidence_range_strategies_witness :
    (0 ≤ calculateTemporalConfidence [] 0 ∧
      calculateTemporalConfidence [] 0 ≤ 1) ∧
    (0 ≤ calculateSimilarityConfidence [[1, 0], [0, 1]] ∧
      calculateSimilarityConfidence [[1, 0], [0, 1]] ≤ 1) ∧
    (0 ≤ (createCluster [] [dbAlertX, dbAlertY] .frequency 1).confidenceScore ∧
      (createCluster [] [dbAlertX, dbAlertY] .frequency 1).confidenceScore ≤ 1) :=
  ⟨confidence_range_strategies.1 [] 0 le_rfl,
   confidence_range_strategies.2.2.2.1 [[1, 0], [0, 1]] (by decide) (by decide),
   confidence_range_strategies.2.2.2.2 [] [("p1", goodPattern)]
     [dbAlertX, dbAlertY] (by intro p hp; simp at hp; simp [hp, goodPattern])
     _ (by decide)⟩

/-- **C3 (amended).** For every alert group and every (nonnegative) gap
standard deviation, the temporal confidence equals
`min(1, max(0.1, 1 − avg/300) × (max(0.1, 1 − std/avg) if std > 0 else 1))`:
each factor is floored at `0.1` individually and the final product is capped
at `1.0`, but the final product is not floored at `0.1`. -/
theorem temporal_confidence_eq_formula (alerts : List Alert) (std : ℚ) :
    calculateTemporalConfidence alerts std =
      temporalConfidenceFormula alerts std := by
  unfold calculateTemporalConfidence temporalConfidenceFormula
  split
  · rfl
  · by_cases hstd : 0 < std
    · simp only [if_pos hstd]
    · simp only [if_neg hstd, mul_one]

/-- A temporal run of four alerts at 0s, 0s, 60s, 180s: the gaps are
`[0, 60, 120]` (all `≤ 120`, so `_temporal_correlation` keeps them in one
run), with mean 60 and sample standard deviation 60. -/
def runAlerts : List Alert :=
  [mkAlert "t1" 0 "svc" "h" "a", mkAlert "t2" 0 "svc" "h" "b",
   mkAlert "t3" 60 "svc" "h" "c", mkAlert "t4" 180 "svc" "h" "d"]

/-- Counterexample to C3 as stated: on the run above the code returns
`0.8 × 0.1 = 0.08`, but the claimed formula (final result floored at `0.1`)
returns `0.1`.  The conjuncts certify that `60` is the exact sample standard
deviation of the gaps and that the run is genuine. -/
theorem temporal_confidence_no_final_floor_cex :
    gapsOf runAlerts = [0, 60, 120] ∧
    (0:ℚ) ≤ 60 ∧ (60:ℚ) ^ 2 = sampleVar (gapsOf runAlerts) ∧
    calculateTemporalConfidence runAlerts 60 = 2/25 ∧
    temporalConfidenceClaimed runAlerts 60 = 1/10 ∧
    ((2:ℚ)/25) < 1/10 := by
  have hgaps : gapsOf runAlerts = [0, 60, 120] := by
    norm_num [gapsOf, diffs, runAlerts, mkAlert, List.insertionSort,
      List.orderedInsert]
  refine ⟨hgaps, by norm_num, ?_, ?_, ?_, by norm_num⟩
  · rw [hgaps]
    norm_num [sampleVar, qmean]
  · have hlen : runAlerts.length = 4 := rfl
    simp only [calculateTemporalConfidence, hgaps, hlen]
    norm_num [qmean, max_def, min_def]
  · have hlen : runAlerts.length = 4 := rfl
    simp only [temporalConfidenceClaimed, hgaps, hlen]
    norm_num [qmean, max_def, min_def]

/-! ### C1: the cluster merger raises before producing any output -/

theorem mergeSweep_error (m : List Alert) (ov : List AlertCluster)
    (rest : List AlertCluster) (h : ∃ d ∈ rest, d.alerts ≠ []) :
    mergeSweep m ov rest = .error .typeError := by
  induction rest generalizing m ov with
  | nil => simp at h
  | cons c rest ih =>
    obtain ⟨d, hd, hne⟩ := h
    rcases List.mem_cons.mp hd with heq | hd'
    · subst heq
      rcases hl : d.alerts with _ | ⟨a, l⟩
      · exact absurd hl hne
      · simp [mergeSweep, pySetOfAlerts, hl]
    · rcases hl : c.alerts with _ | ⟨a, l⟩
      · have hsw : setsOverlap m [] = false := by simp [setsOverlap]
        simp [mergeSweep, pySetOfAlerts, hl, hsw, ih m ov ⟨d, hd', hne⟩]
      · simp [mergeSweep, pySetOfAlerts, hl]

/-- **C1.** On every candidate-cluster list containing at least one cluster
with a nonempty alert list, `_merge_overlapping_clusters` raises
`TypeError` instead of returning: the `Alert` dataclass (`eq=True`,
`frozen=False`) is unhashable, so the very first
`set(cluster1.alerts)`/`set(cluster2.alerts)` construction fails.  The
merger therefore never produces an output cluster list — disjoint or
otherwise — on any input the claim is about.  (Were the sets built by
value, the single left-to-right sweep would additionally be order-sensitive
for transitive overlap; the crash happens first.) -/
theorem merge_raises_type_error_on_nonempty
    (deps : List (String × List String)) (clusters : List AlertCluster)
    (h : ∃ c ∈ clusters, c.alerts ≠ []) :
    mergeOverlappingClusters deps clusters = .error .typeError := by
  unfold mergeOverlappingClusters
  cases clusters with
  | nil => simp at h
  | cons c rest =>
    obtain ⟨d, hd, hne⟩ := h
    show mergeLoop deps (rest.length + 1) (c :: rest) = _
    rcases List.mem_cons.mp hd with heq | hd'
    · subst heq
      rcases hl : d.alerts with _ | ⟨a, l⟩
      · exact absurd hl hne
      · simp [mergeLoop, pySetOfAlerts, hl]
    · rcases hl : c.alerts with _ | ⟨a, l⟩
      · simp [mergeLoop, pySetOfAlerts, hl,
          mergeSweep_error [] [c] rest ⟨d, hd', hne⟩]
      · simp [mergeLoop, pySetOfAlerts, hl]

/-- Alert belonging only to the first candidate cluster below. -/
def mAlert1 : Alert := mkAlert "m1" 0 "s1" "h1" "ta"

/-- Alert shared by the first and third candidate clusters below. -/
def mAlert2 : Alert := mkAlert "m2" 10 "s1" "h1" "tb"

/-- Alert shared by the second and third candidate clusters below. -/
def mAlert3 : Alert := mkAlert "m3" 20 "s2" "h2" "tc"

/-- Alert belonging only to the second candidate cluster below. -/
def mAlert4 : Alert := mkAlert "m4" 30 "s2" "h2" "td"

/-- Candidate cluster `{m1, m2}`. -/
def chainClusterA : AlertCluster := createCluster [] [mAlert1, mAlert2] .temporal 1

/-- Candidate cluster `{m3, m4}`: disjoint from `chainClusterA`. -/
def chainClusterC : AlertCluster := createCluster [] [mAlert3, mAlert4] .temporal 1

/-- Candidate cluster `{m2, m3}`: overlaps both of the other two. -/
def chainClusterB : AlertCluster := createCluster [] [mAlert2, mAlert3] .spatial 1

/-- Witness for C1 at the transitive-overlap chain `[A, C, B]`: the merger
raises `TypeError` at its very first `set(cluster1.alerts)` rather than
returning any cluster list. -/
theorem merge_raises_type_error_on_nonempty_witness :
    mergeOverlappingClusters []
      [chainClusterA, chainClusterC, chainClusterB] = .error .typeError :=
  merge_raises_type_error_on_nonempty []
    [chainClusterA, chainClusterC, chainClusterB] (by decide)

/-! ### C4: dependency strategy on the web→api→db chain -/

/-- The dependency map `{web:[api], api:[db], db:[]}` of the claim. -/
def webDbDeps : List (String × List String) :=
  [("web", ["api"]), ("api", ["db"]), ("db", [])]

/-- A firing alert on service `web`. -/
def webAlert : Alert := mkAlert "w" 0 "web" "h1" "web err"

/-- A firing alert on service `db`. -/
def dbAlert : Alert := mkAlert "d" 30 "db" "h2" "db err"

/-- Counterexample to C4 as stated: with the dependency map
`{web:[api], api:[db], db:[]}` and exactly the two firing alerts on `web`
and `db`, the Dependency strategy produces *no* candidate cluster at all
(so in particular no cluster with confidence `0.6`): for each alerted
service it only collects alerts of the direct predecessor/successor
services — `api` in both cases, which has no alert — and never the
service's own alerts. -/
theorem dependency_web_db_cex :
    dependencyCorrelation webDbDeps [webAlert, dbAlert] = [] := by
  decide

/-- **C4 (amended).** With the dependency map `{web:[api], api:[db],
db:[]}` and exactly two firing alerts, one on `web` and one on `db`
(whatever their other fields), the Dependency strategy produces no
candidate cluster: the distance-2 pair never forms a group because only
direct-neighbor alerts are collected. -/
theorem dependency_web_db_yields_no_cluster (a b : Alert)
    (ha : a.service = "web") (hb : b.service = "db") :
    dependencyCorrelation webDbDeps [a, b] = [] := by
  obtain ⟨aid, ats, asvc, ahost, asev, ast, atitle, adesc, afp, ara, aaa, aab, aci⟩ := a
  obtain ⟨bid, bts, bsvc, bhost, bsev, bst, btitle, bdesc, bfp, bra, baa, bab, bci⟩ := b
  dsimp only at ha hb
  subst ha
  subst hb
  rfl

/-- Witness for C4 (amended) at concrete alerts. -/
theorem dependency_web_db_yields_no_cluster_witness :
    dependencyCorrelation webDbDeps
      [mkAlert "w2" 0 "web" "hw" "x", mkAlert "d2" 1 "db" "hd" "y"] = [] :=
  dependency_web_db_yields_no_cluster _ _ rfl rfl
